import Mathlib

/-!
# capstone2llvmir: the exception classes of `include/capstone2llvmir/exceptions.h`

A shallow embedding of the three exception classes `CapstoneError`,
`Capstone2LlvmIrModeError` and `Capstone2LlvmIrError`, followed by the
properties of their messages.

* Engine identifiers (`cs_err`, `cs_arch`, `cs_mode`) are C enumerations; a value
  is represented by its underlying integer.
* The engine's lookup functions are parameters, gathered in `Engine`.
* `std::string` values are `String`; `std::string` objects whose buffer a
  `const char*` can point into live in an explicit `Memory`.
-/

namespace capstone2llvmir

/-! ## Engine identifiers and lookup functions -/

/-- Modelled from the spec: `cs_err` is declared in `capstone/capstone.h`, which is
not part of the sources. A native error code is an engine-defined constant,
represented here by its underlying integral value. -/
structure cs_err where
  val : Int
deriving DecidableEq, Repr

/-- Modelled from the spec: `cs_arch` is declared in `capstone/capstone.h`. An
architecture identifier is an opaque engine-defined constant, represented by
its underlying integral value. -/
structure cs_arch where
  val : Int
deriving DecidableEq, Repr

/-- Modelled from the spec: `cs_mode` is declared in `capstone/capstone.h`. A mode
identifier is an opaque engine-defined constant (a set of flags), represented
by its underlying integral value. -/
structure cs_mode where
  val : Int
deriving DecidableEq, Repr

/-- Modelled from the spec: the three lookups the header consumes from outside,
`cs_strerror` (capstone.h) and `capstoneModeToString`, `capstoneArchToString`
(capstone_utils.h). Each is an arbitrary function of its argument; the
`const char*` returned by `cs_strerror` is represented by the text it
designates. -/
structure Engine where
  cs_strerror : cs_err → String
  capstoneModeToString : cs_mode → String
  capstoneArchToString : cs_arch → String

/-! ## Library operations used by the header -/

/-- The conversion `static_cast<unsigned>(v)` of an integer to a 32-bit unsigned. -/
def static_cast_unsigned (v : Int) : Nat :=
  (v % 2 ^ 32).toNat

/-- The function `std::to_string(unsigned)`: the decimal digits of the value. -/
def to_string (n : Nat) : String :=
  Nat.repr n

/-- The terminating character of a C string. -/
def NUL : Char := Char.ofNat 0

/-- The text a `const char*` designates when it points at the first character of
the buffer of a string with characters `s`: the characters before the first
NUL. -/
def ntbs (s : String) : String :=
  String.mk (s.data.takeWhile (fun c => c != NUL))

/-- Storage of `std::string` objects. The entry at an address holds the
characters of the object while it is alive and `none` once it is destroyed. -/
structure Memory where
  strings : List (Option String)
deriving DecidableEq, Repr

/-- A `const char*` obtained from `c_str()`: the address of the owning string. -/
structure const_char_ptr where
  addr : Nat
deriving DecidableEq, Repr

/-- Construction of a `std::string` object with the given characters. -/
def Memory.construct (μ : Memory) (s : String) : Nat × Memory :=
  (μ.strings.length, ⟨μ.strings ++ [some s]⟩)

/-- Destruction of the `std::string` object at an address. -/
def Memory.destroy (μ : Memory) (p : Nat) : Memory :=
  ⟨μ.strings.set p none⟩

/-- The member function `std::string::c_str()`. -/
def c_str (p : Nat) : const_char_ptr :=
  ⟨p⟩

/-- Reading the C string behind a `const char*`. The result is `none` when the
owning string no longer exists (the pointer dangles). -/
def Memory.read (μ : Memory) (p : const_char_ptr) : Option String :=
  match μ.strings.getD p.addr none with
  | some s => some (ntbs s)
  | none => none

/-- How the execution of a function ends: it returns a value, or the process is
aborted by a failed assertion. Both carry the memory at that point. -/
inductive Completion (α : Type) where
  | normal (a : α) (μ : Memory)
  | abort (μ : Memory)

/-- The `assert` of `<cassert>`: nothing when `NDEBUG` is defined, otherwise an
abort when the condition is false. -/
def cassert (NDEBUG : Bool) (cond : Bool) (μ : Memory) : Completion Unit :=
  if NDEBUG then .normal () μ
  else if cond then .normal () μ
  else .abort μ

/-! ## CapstoneError -/

/-- An exception class encapsulating Capstone errors. -/
structure CapstoneError where
  _csError : cs_err
deriving DecidableEq, Repr

/-- The constructor `CapstoneError(cs_err e)`. -/
def CapstoneError.ctor (e : cs_err) : CapstoneError :=
  ⟨e⟩

/-- The member `CapstoneError::getMessage`. -/
def CapstoneError.getMessage (E : Engine) (self : CapstoneError) : String :=
  E.cs_strerror self._csError

/-- The member `CapstoneError::what`: `return getMessage().c_str();`. The string
returned by `getMessage()` is a temporary, destroyed at the end of the return
statement. -/
def CapstoneError.what (E : Engine) (self : CapstoneError) (μ : Memory) :
    const_char_ptr × Memory :=
  let (tmp, μ₁) := μ.construct (self.getMessage E)
  let p := c_str tmp
  (p, μ₁.destroy tmp)

/-! ## Capstone2LlvmIrModeError -/

/-- The enumeration `Capstone2LlvmIrModeError::eType`, an `enum class` with
underlying type `int`. -/
structure Capstone2LlvmIrModeError.eType where
  val : Int
deriving DecidableEq, Repr

namespace Capstone2LlvmIrModeError.eType

/-- The enumerator `UNDEF`. -/
def UNDEF : eType := ⟨0⟩
/-- Basic mode cannot be used with this arch. -/
def BASIC_MODE : eType := ⟨1⟩
/-- Extra mode cannot be used with this arch. -/
def EXTRA_MODE : eType := ⟨2⟩
/-- Translator cannot change basic mode for this architecture. -/
def BASIC_MODE_CHANGE : eType := ⟨3⟩

/-- The enumerators of the declaration, in order. -/
def enumerators : List eType :=
  [UNDEF, BASIC_MODE, EXTRA_MODE, BASIC_MODE_CHANGE]

end Capstone2LlvmIrModeError.eType

/-- An exception class related to Capstone mode setting errors. -/
structure Capstone2LlvmIrModeError where
  _arch : cs_arch
  _mode : cs_mode
  _type : Capstone2LlvmIrModeError.eType
deriving DecidableEq, Repr

namespace Capstone2LlvmIrModeError

/-- The constructor `Capstone2LlvmIrModeError(cs_arch a, cs_mode m, eType t)`. -/
def ctor (a : cs_arch) (m : cs_mode) (t : eType) : Capstone2LlvmIrModeError :=
  ⟨a, m, t⟩

/-- The member `Capstone2LlvmIrModeError::getMessage`. -/
def getMessage (E : Engine) (self : Capstone2LlvmIrModeError) : String :=
  let ms := E.capstoneModeToString self._mode ++ " ("
    ++ to_string (static_cast_unsigned self._mode.val) ++ ")"
  let as := E.capstoneArchToString self._arch ++ " ("
    ++ to_string (static_cast_unsigned self._arch.val) ++ ")"
  if self._type = eType.BASIC_MODE then
    "Basic mode: " ++ ms ++ " cannot be used with architecture: " ++ as
  else if self._type = eType.EXTRA_MODE then
    "Extra mode: " ++ ms ++ " cannot be used with architecture: " ++ as
  else if self._type = eType.BASIC_MODE_CHANGE then
    "Translator cannot change basic mode to: " ++ ms ++ " for architecture: " ++ as
  else
    "Undefined type -- should not happen."

/-- The member `Capstone2LlvmIrModeError::what`: `return getMessage().c_str();`.
The string returned by `getMessage()` is a temporary, destroyed at the end of
the return statement. -/
def what (E : Engine) (self : Capstone2LlvmIrModeError) (μ : Memory) :
    const_char_ptr × Memory :=
  let (tmp, μ₁) := μ.construct (self.getMessage E)
  let p := c_str tmp
  (p, μ₁.destroy tmp)

end Capstone2LlvmIrModeError

/-! ## Capstone2LlvmIrError -/

/-- A general exception class for all Capstone2LlvmIr errors. The member
`_whatMessage` is a `std::string` object, held by its address in memory. -/
structure Capstone2LlvmIrError where
  _whatMessage : Nat
deriving DecidableEq, Repr

namespace Capstone2LlvmIrError

/-- The constructor `Capstone2LlvmIrError(const std::string& message)`: the member
initialiser `_whatMessage(message)` runs first, then the body `assert(false)`. -/
def ctor (NDEBUG : Bool) (message : String) (μ : Memory) :
    Completion Capstone2LlvmIrError :=
  let (m, μ₁) := μ.construct message
  match cassert NDEBUG false μ₁ with
  | .normal _ μ₂ => .normal ⟨m⟩ μ₂
  | .abort μ₂ => .abort μ₂

/-- The member `Capstone2LlvmIrError::what`: `return _whatMessage.c_str();`. -/
def what (self : Capstone2LlvmIrError) (μ : Memory) : const_char_ptr × Memory :=
  (c_str self._whatMessage, μ)

end Capstone2LlvmIrError

/-! ## What a handler reads through `what()` -/

/-- The text a handler reads from `CapstoneError(c).what()`: the object is
constructed, `what()` is called on it and the returned pointer is read.
`none` when the pointer does not point to a living string. -/
def CapstoneError.rendered (E : Engine) (c : cs_err) (μ : Memory) : Option String :=
  let (p, μ₁) := (CapstoneError.ctor c).what E μ
  μ₁.read p

/-- The text a handler reads from `Capstone2LlvmIrModeError(a, m, t).what()`.
`none` when the pointer does not point to a living string. -/
def Capstone2LlvmIrModeError.rendered (E : Engine) (a : cs_arch) (m : cs_mode)
    (t : Capstone2LlvmIrModeError.eType) (μ : Memory) : Option String :=
  let (p, μ₁) := (Capstone2LlvmIrModeError.ctor a m t).what E μ
  μ₁.read p

/-- The text a handler reads from `Capstone2LlvmIrError(message).what()`.
`none` when the constructor is aborted or the pointer does not point to a
living string. -/
def Capstone2LlvmIrError.rendered (NDEBUG : Bool) (message : String) (μ : Memory) :
    Option String :=
  match Capstone2LlvmIrError.ctor NDEBUG message μ with
  | .normal e μ₁ =>
    let (p, μ₂) := e.what μ₁
    μ₂.read p
  | .abort _ => none

/-! ## The message templates as the specification words them -/

/-- The template of section 4.3 of the specification for the three kinds that
have one, with the numeric forms of mode and architecture given as text:
`modeNumeric` stands between the first pair of parentheses and `archNumeric`
between the second. -/
def specTemplate (t : Capstone2LlvmIrModeError.eType)
    (modeName modeNumeric archName archNumeric : String) : String :=
  if t = Capstone2LlvmIrModeError.eType.BASIC_MODE_CHANGE then
    "Translator cannot change basic mode to: " ++ modeName ++ " (" ++ modeNumeric
      ++ ") for architecture: " ++ archName ++ " (" ++ archNumeric ++ ")"
  else
    (if t = Capstone2LlvmIrModeError.eType.EXTRA_MODE then "Extra mode" else "Basic mode")
      ++ ": " ++ modeName ++ " (" ++ modeNumeric
      ++ ") cannot be used with architecture: " ++ archName ++ " (" ++ archNumeric ++ ")"

/-- The numeric form of an identifier as the specification words it: the decimal
rendering of the underlying integral value. -/
def underlyingNumeral (v : Int) : String :=
  Int.repr v

/-! ## The bodies of `getMessage`, statement by statement

A call of `getMessage()` runs the statements of the body on a frame that holds
the fields of `*this` and the local variables. A statement is a function on
the whole frame, so a statement that assigned to a field, or read a local
before it was written, would show in the frame after the call. The locals of
the frame a call starts from are arbitrary.
-/

/-- The frame of `CapstoneError::getMessage`: the fields of `*this` and the value
to return. -/
structure CapstoneError.Frame where
  this : CapstoneError
  ret : String
deriving DecidableEq, Repr

/-- The body of `CapstoneError::getMessage`, the one statement
`return cs_strerror(_csError);`. -/
def CapstoneError.getMessageBody (E : Engine) (f : CapstoneError.Frame) :
    CapstoneError.Frame :=
  ⟨f.this, E.cs_strerror f.this._csError⟩

/-- A call of `CapstoneError::getMessage` on a frame: the string returned and the
frame the call leaves. -/
def CapstoneError.getMessageCall (E : Engine) (f : CapstoneError.Frame) :
    String × CapstoneError.Frame :=
  ((CapstoneError.getMessageBody E f).ret, CapstoneError.getMessageBody E f)

namespace Capstone2LlvmIrModeError

/-- The frame of `Capstone2LlvmIrModeError::getMessage`: the fields of `*this` and
the locals `ms`, `as` and `ret`. -/
structure Frame where
  this : Capstone2LlvmIrModeError
  ms : String
  as : String
  ret : String
deriving DecidableEq, Repr

/-- The statement `std::string ms = capstoneModeToString(_mode) + " (" +
std::to_string(static_cast<unsigned>(_mode)) + ")";`. -/
def declare_ms (E : Engine) (f : Frame) : Frame :=
  ⟨f.this,
   E.capstoneModeToString f.this._mode ++ " ("
     ++ to_string (static_cast_unsigned f.this._mode.val) ++ ")",
   f.as, f.ret⟩

/-- The statement `std::string as = capstoneArchToString(_arch) + " (" +
std::to_string(static_cast<unsigned>(_arch)) + ")";`. -/
def declare_as (E : Engine) (f : Frame) : Frame :=
  ⟨f.this, f.ms,
   E.capstoneArchToString f.this._arch ++ " ("
     ++ to_string (static_cast_unsigned f.this._arch.val) ++ ")",
   f.ret⟩

/-- The statement `std::string ret;`. -/
def declare_ret (f : Frame) : Frame :=
  ⟨f.this, f.ms, f.as, ""⟩

/-- The statement `switch (_type)`, each case an assignment to `ret`. -/
def switch_type (f : Frame) : Frame :=
  if f.this._type = eType.BASIC_MODE then
    ⟨f.this, f.ms, f.as,
     "Basic mode: " ++ f.ms ++ " cannot be used with architecture: " ++ f.as⟩
  else if f.this._type = eType.EXTRA_MODE then
    ⟨f.this, f.ms, f.as,
     "Extra mode: " ++ f.ms ++ " cannot be used with architecture: " ++ f.as⟩
  else if f.this._type = eType.BASIC_MODE_CHANGE then
    ⟨f.this, f.ms, f.as,
     "Translator cannot change basic mode to: " ++ f.ms ++ " for architecture: " ++ f.as⟩
  else
    ⟨f.this, f.ms, f.as, "Undefined type -- should not happen."⟩

/-- The body of `Capstone2LlvmIrModeError::getMessage` up to `return ret;`. -/
def getMessageBody (E : Engine) (f : Frame) : Frame :=
  switch_type (declare_ret (declare_as E (declare_ms E f)))

/-- A call of `Capstone2LlvmIrModeError::getMessage` on a frame: the string
returned by `return ret;` and the frame the call leaves. -/
def getMessageCall (E : Engine) (f : Frame) : String × Frame :=
  ((getMessageBody E f).ret, getMessageBody E f)

end Capstone2LlvmIrModeError

/-! ## Vocabulary of the properties -/

/-- Substring containment: `x` occurs in `s`. -/
def occursIn (x s : String) : Prop :=
  ∃ p q : String, s = p ++ x ++ q

/-- The two fixed phrases of a kind, as section 4.3 of the specification gives
them: the one before the mode name and the one before the architecture name. -/
def fixedPhrases (t : Capstone2LlvmIrModeError.eType) : String × String :=
  if t = Capstone2LlvmIrModeError.eType.BASIC_MODE_CHANGE then
    ("Translator cannot change basic mode to: ", " for architecture: ")
  else if t = Capstone2LlvmIrModeError.eType.EXTRA_MODE then
    ("Extra mode: ", " cannot be used with architecture: ")
  else
    ("Basic mode: ", " cannot be used with architecture: ")

/-- The sentinel message of the `UNDEF` and `default` branch. -/
def sentinel : String :=
  "Undefined type -- should not happen."

/-- The number a string of decimal digits stands for, most significant digit
first. -/
def decimalValue (s : String) : Nat :=
  s.data.foldl (fun acc c => 10 * acc + (c.toNat - '0'.toNat)) 0

/-- A decimal numeral in canonical form: not empty, decimal digits only (so no
sign character), and no leading zero, the numeral "0" apart. -/
def isCanonicalDecimal (s : String) : Bool :=
  !s.data.isEmpty && s.data.all Char.isDigit && (s == "0" || s.data.head? != some '0')

/-! ## A concrete engine for evaluating the definitions -/

/-- A concrete engine with the names of the scenario of the specification: mode 2
is "16-bit", architecture 3 is "X86", error code 0 is "OK (CS_ERR_OK)"; the
mode with underlying value `1 << 31` as a signed 32-bit integer is
"big-endian". -/
def sampleEngine : Engine where
  cs_strerror := fun e => if e.val = 0 then "OK (CS_ERR_OK)" else "Unknown error code"
  capstoneModeToString := fun m =>
    if m.val = 2 then "16-bit" else if m.val = -2147483648 then "big-endian" else "UNKNOWN"
  capstoneArchToString := fun a => if a.val = 3 then "X86" else "UNKNOWN"

/-- A second concrete engine: it agrees with `sampleEngine` on mode 2,
architecture 3 and error code 0 and differs on every other identifier. -/
def otherEngine : Engine where
  cs_strerror := fun e => if e.val = 0 then "OK (CS_ERR_OK)" else "?"
  capstoneModeToString := fun m => if m.val = 2 then "16-bit" else "?"
  capstoneArchToString := fun a => if a.val = 3 then "X86" else "?"

/-! ## Memory and C strings -/

theorem Memory.read_construct (μ : Memory) (s : String) :
    (μ.construct s).2.read (c_str (μ.construct s).1) = some (ntbs s) := by
  simp [Memory.read, Memory.construct, c_str, List.getD_eq_getElem?_getD]

theorem Memory.read_destroy_construct (μ : Memory) (s : String) :
    ((μ.construct s).2.destroy (μ.construct s).1).read (c_str (μ.construct s).1) = none := by
  simp [Memory.read, Memory.construct, Memory.destroy, c_str, List.getD_eq_getElem?_getD,
    List.getElem?_set]

theorem ntbs_eq_self (s : String) (h : NUL ∉ s.data) : ntbs s = s := by
  have hs : s.data.takeWhile (fun c => c != NUL) = s.data := by
    rw [List.takeWhile_eq_self_iff]
    intro c hc
    simp only [bne_iff_ne, ne_eq]
    rintro rfl
    exact h hc
  simp [ntbs, hs]

theorem CapstoneError.what_points_into_destroyed_temporary (E : Engine) (c : cs_err) (μ : Memory) :
    CapstoneError.rendered E c μ = none := by
  simp only [CapstoneError.rendered, CapstoneError.what]
  exact Memory.read_destroy_construct μ _

theorem Capstone2LlvmIrModeError.what_returns_dangling_pointer (E : Engine) (a : cs_arch) (m : cs_mode)
    (t : Capstone2LlvmIrModeError.eType) (μ : Memory) :
    Capstone2LlvmIrModeError.rendered E a m t μ = none := by
  simp only [Capstone2LlvmIrModeError.rendered, Capstone2LlvmIrModeError.what]
  exact Memory.read_destroy_construct μ _

theorem Capstone2LlvmIrError.rendered_eq_ntbs (message : String) (μ : Memory) :
    Capstone2LlvmIrError.rendered true message μ = some (ntbs message) := by
  simp only [Capstone2LlvmIrError.rendered, Capstone2LlvmIrError.ctor, cassert,
    Capstone2LlvmIrError.what, if_true]
  exact Memory.read_construct μ _

theorem underlyingNumeral_of_range (v : Int) (h0 : 0 ≤ v) (h1 : v < 2 ^ 32) :
    underlyingNumeral v = to_string (static_cast_unsigned v) := by
  unfold underlyingNumeral to_string static_cast_unsigned
  rw [Int.emod_eq_of_lt h0 h1]
  obtain ⟨n, rfl⟩ := Int.eq_ofNat_of_zero_le h0
  rfl

theorem underlyingNumeral_emod (v : Int) :
    underlyingNumeral (v % 2 ^ 32) = to_string (static_cast_unsigned v) := by
  have h0 : 0 ≤ v % 2 ^ 32 := Int.emod_nonneg _ (by norm_num)
  have h1 : v % 2 ^ 32 < 2 ^ 32 := Int.emod_lt_of_pos _ (by norm_num)
  rw [underlyingNumeral_of_range _ h0 h1]
  simp [static_cast_unsigned, Int.emod_emod_of_dvd]

theorem Capstone2LlvmIrModeError.getMessage_eq_specTemplate (E : Engine) (a : cs_arch)
    (m : cs_mode) (t : Capstone2LlvmIrModeError.eType)
    (ht : t = eType.BASIC_MODE ∨ t = eType.EXTRA_MODE ∨ t = eType.BASIC_MODE_CHANGE) :
    (Capstone2LlvmIrModeError.ctor a m t).getMessage E
      = specTemplate t (E.capstoneModeToString m) (to_string (static_cast_unsigned m.val))
          (E.capstoneArchToString a) (to_string (static_cast_unsigned a.val)) := by
  have h12 : eType.EXTRA_MODE ≠ eType.BASIC_MODE := by decide
  have h13 : eType.BASIC_MODE_CHANGE ≠ eType.BASIC_MODE := by decide
  have h23 : eType.BASIC_MODE_CHANGE ≠ eType.EXTRA_MODE := by decide
  rcases ht with rfl | rfl | rfl
  · simp [getMessage, ctor, specTemplate, h12.symm, h13.symm, String.append_assoc]
  · simp [getMessage, ctor, specTemplate, h12, h23.symm, String.append_assoc]
  · simp [getMessage, ctor, specTemplate, h13, h23, String.append_assoc]

/-! ## Messages of Capstone2LlvmIrModeError -/

section ModeErrorMessages

open Capstone2LlvmIrModeError

/-- C1 as stated fails: for the mode whose number is -2147483648, architecture
3 and kind BASIC_MODE, the message carries "(2147483648)", while the string
of the claim, built on the decimal rendering of the identifier's number,
carries "(-2147483648)". -/
theorem basic_mode_message_of_negative_mode :
    (Capstone2LlvmIrModeError.ctor ⟨3⟩ ⟨-2147483648⟩ eType.BASIC_MODE).getMessage sampleEngine
        = "Basic mode: big-endian (2147483648) cannot be used with architecture: X86 (3)"
      ∧ "Basic mode: " ++ sampleEngine.capstoneModeToString ⟨-2147483648⟩ ++ " ("
          ++ underlyingNumeral (-2147483648) ++ ") cannot be used with architecture: "
          ++ sampleEngine.capstoneArchToString ⟨3⟩ ++ " (" ++ underlyingNumeral 3 ++ ")"
        = "Basic mode: big-endian (-2147483648) cannot be used with architecture: X86 (3)"
      ∧ (Capstone2LlvmIrModeError.ctor ⟨3⟩ ⟨-2147483648⟩ eType.BASIC_MODE).getMessage sampleEngine
        ≠ "Basic mode: " ++ sampleEngine.capstoneModeToString ⟨-2147483648⟩ ++ " ("
          ++ underlyingNumeral (-2147483648) ++ ") cannot be used with architecture: "
          ++ sampleEngine.capstoneArchToString ⟨3⟩ ++ " (" ++ underlyingNumeral 3 ++ ")" := by
  decide

/-- C1, amended: for every architecture `a` and mode `m`, the message of
`Capstone2LlvmIrModeError(a, m, BASIC_MODE)` is
"Basic mode: " ++ modeName(m) ++ " (" ++ decimal(m) ++ ") cannot be used with
architecture: " ++ archName(a) ++ " (" ++ decimal(a) ++ ")", for arbitrary
name functions of the engine, where decimal is the decimal rendering of the
identifier's number modulo 2^32 (the conversion to unsigned); when both
numbers lie in 0 .. 2^32 - 1 it is the decimal rendering of the identifier's
number itself. -/
theorem getMessage_basic_mode (E : Engine) (a : cs_arch) (m : cs_mode) :
    (Capstone2LlvmIrModeError.ctor a m eType.BASIC_MODE).getMessage E
        = "Basic mode: " ++ E.capstoneModeToString m ++ " ("
          ++ underlyingNumeral (m.val % 2 ^ 32)
          ++ ") cannot be used with architecture: "
          ++ E.capstoneArchToString a ++ " (" ++ underlyingNumeral (a.val % 2 ^ 32) ++ ")"
      ∧ (0 ≤ m.val → m.val < 2 ^ 32 → 0 ≤ a.val → a.val < 2 ^ 32 →
          (Capstone2LlvmIrModeError.ctor a m eType.BASIC_MODE).getMessage E
            = "Basic mode: " ++ E.capstoneModeToString m ++ " ("
              ++ underlyingNumeral m.val
              ++ ") cannot be used with architecture: "
              ++ E.capstoneArchToString a ++ " (" ++ underlyingNumeral a.val ++ ")") := by
  have key : (Capstone2LlvmIrModeError.ctor a m eType.BASIC_MODE).getMessage E
      = "Basic mode: " ++ E.capstoneModeToString m ++ " ("
        ++ to_string (static_cast_unsigned m.val)
        ++ ") cannot be used with architecture: "
        ++ E.capstoneArchToString a ++ " (" ++ to_string (static_cast_unsigned a.val)
        ++ ")" := by
    have h : ") cannot be used with architecture: "
        = ")" ++ " cannot be used with architecture: " := by decide
    rw [h]
    simp [getMessage, ctor, String.append_assoc]
  refine ⟨?_, ?_⟩
  · rw [underlyingNumeral_emod, underlyingNumeral_emod]
    exact key
  · intro hm0 hm1 ha0 ha1
    rw [underlyingNumeral_of_range _ hm0 hm1, underlyingNumeral_of_range _ ha0 ha1]
    exact key

/-- The amended C1 at the scenario of the specification: architecture 3 ("X86")
and mode 2 ("16-bit"). -/
theorem getMessage_basic_mode_witness :
    (Capstone2LlvmIrModeError.ctor ⟨3⟩ ⟨2⟩ eType.BASIC_MODE).getMessage sampleEngine
      = "Basic mode: 16-bit (2) cannot be used with architecture: X86 (3)" :=
  ((getMessage_basic_mode sampleEngine ⟨3⟩ ⟨2⟩).2
    (by decide) (by decide) (by decide) (by decide)).trans (by decide)

/-- C2 as stated fails: for the mode whose number is -2147483648, architecture
3 and kind BASIC_MODE_CHANGE, the message carries "(2147483648)", while the
string of the claim, built on the decimal rendering of the identifier's
number, carries "(-2147483648)". -/
theorem basic_mode_change_message_of_negative_mode :
    (Capstone2LlvmIrModeError.ctor ⟨3⟩ ⟨-2147483648⟩ eType.BASIC_MODE_CHANGE).getMessage
          sampleEngine
        = "Translator cannot change basic mode to: big-endian (2147483648) for architecture: X86 (3)"
      ∧ "Translator cannot change basic mode to: "
          ++ sampleEngine.capstoneModeToString ⟨-2147483648⟩ ++ " ("
          ++ underlyingNumeral (-2147483648) ++ ") for architecture: "
          ++ sampleEngine.capstoneArchToString ⟨3⟩ ++ " (" ++ underlyingNumeral 3 ++ ")"
        = "Translator cannot change basic mode to: big-endian (-2147483648) for architecture: X86 (3)"
      ∧ (Capstone2LlvmIrModeError.ctor ⟨3⟩ ⟨-2147483648⟩ eType.BASIC_MODE_CHANGE).getMessage
          sampleEngine
        ≠ "Translator cannot change basic mode to: "
          ++ sampleEngine.capstoneModeToString ⟨-2147483648⟩ ++ " ("
          ++ underlyingNumeral (-2147483648) ++ ") for architecture: "
          ++ sampleEngine.capstoneArchToString ⟨3⟩ ++ " (" ++ underlyingNumeral 3 ++ ")" := by
  decide

/-- C2, amended: for every architecture `a` and mode `m`, the message of
`Capstone2LlvmIrModeError(a, m, BASIC_MODE_CHANGE)` is
"Translator cannot change basic mode to: " ++ modeName(m) ++ " (" ++ decimal(m)
++ ") for architecture: " ++ archName(a) ++ " (" ++ decimal(a) ++ ")", where
decimal is the decimal rendering of the identifier's number modulo 2^32 (the
conversion to unsigned); when both numbers lie in 0 .. 2^32 - 1 it is the
decimal rendering of the identifier's number itself. -/
theorem getMessage_basic_mode_change (E : Engine) (a : cs_arch) (m : cs_mode) :
    (Capstone2LlvmIrModeError.ctor a m eType.BASIC_MODE_CHANGE).getMessage E
        = "Translator cannot change basic mode to: " ++ E.capstoneModeToString m ++ " ("
          ++ underlyingNumeral (m.val % 2 ^ 32)
          ++ ") for architecture: "
          ++ E.capstoneArchToString a ++ " (" ++ underlyingNumeral (a.val % 2 ^ 32) ++ ")"
      ∧ (0 ≤ m.val → m.val < 2 ^ 32 → 0 ≤ a.val → a.val < 2 ^ 32 →
          (Capstone2LlvmIrModeError.ctor a m eType.BASIC_MODE_CHANGE).getMessage E
            = "Translator cannot change basic mode to: " ++ E.capstoneModeToString m ++ " ("
              ++ underlyingNumeral m.val
              ++ ") for architecture: "
              ++ E.capstoneArchToString a ++ " (" ++ underlyingNumeral a.val ++ ")") := by
  have key : (Capstone2LlvmIrModeError.ctor a m eType.BASIC_MODE_CHANGE).getMessage E
      = "Translator cannot change basic mode to: " ++ E.capstoneModeToString m ++ " ("
        ++ to_string (static_cast_unsigned m.val)
        ++ ") for architecture: "
        ++ E.capstoneArchToString a ++ " (" ++ to_string (static_cast_unsigned a.val)
        ++ ")" := by
    have h : ") for architecture: " = ")" ++ " for architecture: " := by decide
    have h1 : eType.BASIC_MODE_CHANGE ≠ eType.BASIC_MODE := by decide
    have h2 : eType.BASIC_MODE_CHANGE ≠ eType.EXTRA_MODE := by decide
    rw [h]
    simp [getMessage, ctor, String.append_assoc, h1, h2]
  refine ⟨?_, ?_⟩
  · rw [underlyingNumeral_emod, underlyingNumeral_emod]
    exact key
  · intro hm0 hm1 ha0 ha1
    rw [underlyingNumeral_of_range _ hm0 hm1, underlyingNumeral_of_range _ ha0 ha1]
    exact key

/-- The amended C2 at architecture 3 ("X86") and mode 2 ("16-bit"). -/
theorem getMessage_basic_mode_change_witness :
    (Capstone2LlvmIrModeError.ctor ⟨3⟩ ⟨2⟩ eType.BASIC_MODE_CHANGE).getMessage sampleEngine
      = "Translator cannot change basic mode to: 16-bit (2) for architecture: X86 (3)" :=
  ((getMessage_basic_mode_change sampleEngine ⟨3⟩ ⟨2⟩).2
    (by decide) (by decide) (by decide) (by decide)).trans (by decide)

/-- C3: the EXTRA_MODE message is the BASIC_MODE message of the same architecture
and mode with the leading "Basic mode" replaced by "Extra mode": one suffix
`t` follows "Basic mode" in the one and "Extra mode" in the other. -/
theorem getMessage_extra_mode_same_suffix (E : Engine) (a : cs_arch) (m : cs_mode) :
    ∃ t : String,
      (Capstone2LlvmIrModeError.ctor a m eType.BASIC_MODE).getMessage E = "Basic mode" ++ t
      ∧ (Capstone2LlvmIrModeError.ctor a m eType.EXTRA_MODE).getMessage E
          = "Extra mode" ++ t := by
  refine ⟨": " ++ (E.capstoneModeToString m ++ " ("
    ++ to_string (static_cast_unsigned m.val) ++ ")")
    ++ " cannot be used with architecture: "
    ++ (E.capstoneArchToString a ++ " ("
    ++ to_string (static_cast_unsigned a.val) ++ ")"), ?_, ?_⟩
  · have h : "Basic mode: " = "Basic mode" ++ ": " := by decide
    simp [getMessage, ctor, String.append_assoc]
    rw [h, String.append_assoc]
  · have h : "Extra mode: " = "Extra mode" ++ ": " := by decide
    have h1 : eType.EXTRA_MODE ≠ eType.BASIC_MODE := by decide
    simp [getMessage, ctor, h1, String.append_assoc]
    rw [h, String.append_assoc]

/-- C4: for every architecture and mode, and whatever the engine's name functions
return, the message of `Capstone2LlvmIrModeError(a, m, UNDEF)` is the fixed
string "Undefined type -- should not happen.". -/
theorem getMessage_undef (E : Engine) (a : cs_arch) (m : cs_mode) :
    (Capstone2LlvmIrModeError.ctor a m eType.UNDEF).getMessage E
      = "Undefined type -- should not happen." := by
  have h1 : eType.UNDEF ≠ eType.BASIC_MODE := by decide
  have h2 : eType.UNDEF ≠ eType.EXTRA_MODE := by decide
  have h3 : eType.UNDEF ≠ eType.BASIC_MODE_CHANGE := by decide
  simp [getMessage, ctor, h1, h2, h3]

/-- C8 as stated fails: the declaration of `eType` does not have five
enumerators. -/
theorem eType_enumerators_length_ne_five : eType.enumerators.length ≠ 5 := by
  decide

/-- C8, amended: `eType` is an enumeration with four enumerators, `UNDEF`,
`BASIC_MODE`, `EXTRA_MODE` and `BASIC_MODE_CHANGE`, pairwise distinct, with the
values 0, 1, 2, 3. -/
theorem eType_enumerators_four :
    eType.enumerators.length = 4 ∧ eType.enumerators.Nodup
      ∧ eType.enumerators.map eType.val = [0, 1, 2, 3] := by
  decide

/-- C9 as stated fails: for the mode whose underlying value is `-2147483648` (bit
31 set in a signed 32-bit enumeration) the numeral in the message is
"2147483648", not the decimal rendering "-2147483648" of the underlying
value. -/
theorem getMessage_numeral_of_negative_mode :
    (Capstone2LlvmIrModeError.ctor ⟨3⟩ ⟨-2147483648⟩ eType.BASIC_MODE).getMessage sampleEngine
        = "Basic mode: big-endian (2147483648) cannot be used with architecture: X86 (3)"
      ∧ specTemplate eType.BASIC_MODE "big-endian" (underlyingNumeral (-2147483648))
          "X86" (underlyingNumeral 3)
        = "Basic mode: big-endian (-2147483648) cannot be used with architecture: X86 (3)"
      ∧ (Capstone2LlvmIrModeError.ctor ⟨3⟩ ⟨-2147483648⟩ eType.BASIC_MODE).getMessage sampleEngine
        ≠ specTemplate eType.BASIC_MODE
            (sampleEngine.capstoneModeToString ⟨-2147483648⟩) (underlyingNumeral (-2147483648))
            (sampleEngine.capstoneArchToString ⟨3⟩) (underlyingNumeral 3) := by
  decide

/-- C9, amended: for each of the kinds BASIC_MODE, EXTRA_MODE and
BASIC_MODE_CHANGE the numerals in parentheses are the decimal renderings of
the underlying values of mode and architecture reduced modulo 2^32 (the
conversion to unsigned); when both underlying values lie in 0 .. 2^32 - 1
they are the decimal renderings of the underlying values themselves. -/
theorem getMessage_numerals (E : Engine) (a : cs_arch) (m : cs_mode) (t : eType)
    (ht : t = eType.BASIC_MODE ∨ t = eType.EXTRA_MODE ∨ t = eType.BASIC_MODE_CHANGE) :
    (Capstone2LlvmIrModeError.ctor a m t).getMessage E
        = specTemplate t (E.capstoneModeToString m) (underlyingNumeral (m.val % 2 ^ 32))
            (E.capstoneArchToString a) (underlyingNumeral (a.val % 2 ^ 32))
      ∧ (0 ≤ m.val → m.val < 2 ^ 32 → 0 ≤ a.val → a.val < 2 ^ 32 →
          (Capstone2LlvmIrModeError.ctor a m t).getMessage E
            = specTemplate t (E.capstoneModeToString m) (underlyingNumeral m.val)
                (E.capstoneArchToString a) (underlyingNumeral a.val)) := by
  refine ⟨?_, ?_⟩
  · rw [underlyingNumeral_emod, underlyingNumeral_emod]
    exact getMessage_eq_specTemplate E a m t ht
  · intro hm0 hm1 ha0 ha1
    rw [underlyingNumeral_of_range _ hm0 hm1, underlyingNumeral_of_range _ ha0 ha1]
    exact getMessage_eq_specTemplate E a m t ht

/-- The amended C9 at the scenario of the specification: architecture 3 ("X86"),
mode 2 ("16-bit"), kind BASIC_MODE. -/
theorem getMessage_numerals_witness :
    (Capstone2LlvmIrModeError.ctor ⟨3⟩ ⟨2⟩ eType.BASIC_MODE).getMessage sampleEngine
        = specTemplate eType.BASIC_MODE (sampleEngine.capstoneModeToString ⟨2⟩)
            (underlyingNumeral ((2 : Int) % 2 ^ 32))
            (sampleEngine.capstoneArchToString ⟨3⟩) (underlyingNumeral ((3 : Int) % 2 ^ 32))
      ∧ (Capstone2LlvmIrModeError.ctor ⟨3⟩ ⟨2⟩ eType.BASIC_MODE).getMessage sampleEngine
        = specTemplate eType.BASIC_MODE (sampleEngine.capstoneModeToString ⟨2⟩)
            (underlyingNumeral 2) (sampleEngine.capstoneArchToString ⟨3⟩)
            (underlyingNumeral 3) :=
  ⟨(getMessage_numerals sampleEngine ⟨3⟩ ⟨2⟩ eType.BASIC_MODE (Or.inl rfl)).1,
   (getMessage_numerals sampleEngine ⟨3⟩ ⟨2⟩ eType.BASIC_MODE (Or.inl rfl)).2
     (by decide) (by decide) (by decide) (by decide)⟩

end ModeErrorMessages

/-! ## Message of CapstoneError -/

/-- C5: for every native error code `c`, with no condition on `c`, the message of
`CapstoneError(c)` is the engine's own description `cs_strerror(c)`, with
nothing prepended, appended or altered. -/
theorem CapstoneError.getMessage_eq_cs_strerror (E : Engine) (c : cs_err) :
    (CapstoneError.ctor c).getMessage E = E.cs_strerror c := by
  simp [CapstoneError.getMessage, CapstoneError.ctor]

/-! ## Capstone2LlvmIrError -/

/-- C6 as stated fails: for the three-character message 'a', NUL, 'b', in a build
with assertions disabled, `what()` designates the one-character text "a";
and in a build with assertions enabled no message is rendered at all, the
constructor being aborted. -/
theorem Capstone2LlvmIrError.rendered_with_NUL :
    Capstone2LlvmIrError.rendered true (String.mk ['a', NUL, 'b']) ⟨[]⟩ = some "a"
      ∧ Capstone2LlvmIrError.rendered true (String.mk ['a', NUL, 'b']) ⟨[]⟩
          ≠ some (String.mk ['a', NUL, 'b'])
      ∧ (String.mk ['a', NUL, 'b']).length = 3 ∧ "a".length = 1
      ∧ Capstone2LlvmIrError.rendered false "mode error" ⟨[]⟩ = none := by
  decide

/-- C6, amended: in a build with assertions disabled, for every string `s` that
contains no NUL character, constructing `Capstone2LlvmIrError(s)` and reading
`what()` yields exactly `s`. -/
theorem Capstone2LlvmIrError.rendered_roundtrip (s : String) (μ : Memory)
    (h : NUL ∉ s.data) :
    Capstone2LlvmIrError.rendered true s μ = some s := by
  rw [Capstone2LlvmIrError.rendered_eq_ntbs, ntbs_eq_self s h]

/-- The amended C6 at the message "mode error" in empty memory. -/
theorem Capstone2LlvmIrError.rendered_roundtrip_witness :
    NUL ∉ "mode error".data
      ∧ Capstone2LlvmIrError.rendered true "mode error" ⟨[]⟩ = some "mode error" :=
  ⟨by decide, Capstone2LlvmIrError.rendered_roundtrip "mode error" ⟨[]⟩ (by decide)⟩

/-- C7: in a build with assertions enabled the constructor of
`Capstone2LlvmIrError` is aborted by the assertion for every message, so no
object is returned, and at the abort the message is already stored; in a
build with assertions disabled the constructor returns an object for every
message. -/
theorem Capstone2LlvmIrError.ctor_assert (message : String) (μ : Memory) :
    Capstone2LlvmIrError.ctor false message μ = .abort (μ.construct message).2
      ∧ (∀ e μ₁, Capstone2LlvmIrError.ctor false message μ ≠ .normal e μ₁)
      ∧ (μ.construct message).2.strings.getD (μ.construct message).1 none = some message
      ∧ Capstone2LlvmIrError.ctor true message μ
          = .normal ⟨(μ.construct message).1⟩ (μ.construct message).2 := by
  refine ⟨?_, ?_, ?_, ?_⟩
  · simp [Capstone2LlvmIrError.ctor, cassert]
  · intro e μ₁
    simp [Capstone2LlvmIrError.ctor, cassert]
  · simp [Memory.construct, List.getD_eq_getElem?_getD]
  · simp [Capstone2LlvmIrError.ctor, cassert]

/-! ## Rendering through `what()` -/

/-- C10, at `CapstoneError(0)` and `Capstone2LlvmIrModeError(3, 2, BASIC_MODE)`:
`getMessage()` gives the message, but the pointer returned by `what()` points
into a temporary string that no longer exists, so no text can be read from
it; `Capstone2LlvmIrError::what()` points into the stored member and gives the
message. -/
theorem what_of_temporary_dangles :
    (CapstoneError.ctor ⟨0⟩).getMessage sampleEngine = "OK (CS_ERR_OK)"
      ∧ CapstoneError.rendered sampleEngine ⟨0⟩ ⟨[]⟩ = none
      ∧ (Capstone2LlvmIrModeError.ctor ⟨3⟩ ⟨2⟩
            Capstone2LlvmIrModeError.eType.BASIC_MODE).getMessage sampleEngine
          = "Basic mode: 16-bit (2) cannot be used with architecture: X86 (3)"
      ∧ Capstone2LlvmIrModeError.rendered sampleEngine ⟨3⟩ ⟨2⟩
            Capstone2LlvmIrModeError.eType.BASIC_MODE ⟨[]⟩ = none
      ∧ Capstone2LlvmIrError.rendered true "mode error" ⟨[]⟩ = some "mode error" := by
  decide

/-! ## Decimal numerals produced by `to_string` -/

theorem toDigitsCore_append (b : Nat) : ∀ (fuel n : Nat) (ds : List Char),
    Nat.toDigitsCore b fuel n ds = Nat.toDigitsCore b fuel n [] ++ ds := by
  intro fuel
  induction fuel with
  | zero => intro n ds; simp [Nat.toDigitsCore]
  | succ f ih =>
    intro n ds
    simp only [Nat.toDigitsCore]
    split
    · simp
    · rw [ih (n / b) (Nat.digitChar (n % b) :: ds), ih (n / b) [Nat.digitChar (n % b)]]
      simp

theorem toDigitsCore_fuel (b : Nat) (hb : 2 ≤ b) : ∀ (f₁ f₂ n : Nat) (ds : List Char),
    n < f₁ → n < f₂ → Nat.toDigitsCore b f₁ n ds = Nat.toDigitsCore b f₂ n ds := by
  intro f₁
  induction f₁ with
  | zero => intro f₂ n ds h; omega
  | succ f ih =>
    intro f₂ n ds h₁ h₂
    cases f₂ with
    | zero => omega
    | succ g =>
      simp only [Nat.toDigitsCore]
      split
      · rfl
      · rename_i hne
        have hn : 0 < n := by
          rcases Nat.eq_zero_or_pos n with h0 | h0
          · simp [h0] at hne
          · exact h0
        have hlt : n / b < n := Nat.div_lt_self hn hb
        exact ih g (n / b) _ (by omega) (by omega)

theorem toDigits_of_lt_ten (n : Nat) (h : n < 10) : Nat.toDigits 10 n = [Nat.digitChar n] := by
  have h0 : n / 10 = 0 := by omega
  have h1 : n % 10 = n := by omega
  simp [Nat.toDigits, Nat.toDigitsCore, h0, h1]

theorem toDigits_of_ten_le (n : Nat) (h : 10 ≤ n) :
    Nat.toDigits 10 n = Nat.toDigits 10 (n / 10) ++ [Nat.digitChar (n % 10)] := by
  have h0 : n / 10 ≠ 0 := by omega
  have hlt : n / 10 < n := by omega
  unfold Nat.toDigits
  rw [Nat.toDigitsCore]
  simp only [h0, if_false]
  rw [toDigitsCore_append]
  rw [toDigitsCore_fuel 10 (by decide) n (n / 10 + 1) (n / 10) [] hlt (by omega)]

theorem digitChar_of_lt_ten (k : Nat) (h : k < 10) :
    (Nat.digitChar k).isDigit = true ∧ (Nat.digitChar k).toNat - '0'.toNat = k
      ∧ (0 < k → Nat.digitChar k ≠ '0') := by
  interval_cases k <;> decide

theorem toDigits_ne_nil (n : Nat) : Nat.toDigits 10 n ≠ [] := by
  by_cases h : n < 10
  · simp [toDigits_of_lt_ten n h]
  · simp [toDigits_of_ten_le n (by omega)]

theorem toDigits_all_isDigit (n : Nat) : ∀ c ∈ Nat.toDigits 10 n, c.isDigit = true := by
  induction n using Nat.strong_induction_on with
  | _ n ih =>
    by_cases h : n < 10
    · rw [toDigits_of_lt_ten n h]
      intro c hc
      simp only [List.mem_singleton] at hc
      rw [hc]
      exact (digitChar_of_lt_ten n h).1
    · rw [toDigits_of_ten_le n (by omega)]
      intro c hc
      rcases List.mem_append.1 hc with hc | hc
      · exact ih (n / 10) (by omega) c hc
      · simp only [List.mem_singleton] at hc
        rw [hc]
        exact (digitChar_of_lt_ten (n % 10) (by omega)).1

theorem toDigits_head_ne_zero (n : Nat) (hn : 0 < n) :
    (Nat.toDigits 10 n).head? ≠ some '0' := by
  induction n using Nat.strong_induction_on with
  | _ n ih =>
    by_cases h : n < 10
    · rw [toDigits_of_lt_ten n h]
      simpa using (digitChar_of_lt_ten n h).2.2 hn
    · rw [toDigits_of_ten_le n (by omega)]
      have hne := toDigits_ne_nil (n / 10)
      rw [List.head?_append_of_ne_nil _ hne]
      exact ih (n / 10) (by omega) (by omega)

theorem toDigits_foldl_value (n : Nat) :
    (Nat.toDigits 10 n).foldl (fun acc c => 10 * acc + (c.toNat - '0'.toNat)) 0 = n := by
  induction n using Nat.strong_induction_on with
  | _ n ih =>
    by_cases h : n < 10
    · rw [toDigits_of_lt_ten n h]
      simpa using (digitChar_of_lt_ten n h).2.1
    · rw [toDigits_of_ten_le n (by omega), List.foldl_append, ih (n / 10) (by omega)]
      simp only [List.foldl_cons, List.foldl_nil]
      rw [(digitChar_of_lt_ten (n % 10) (by omega)).2.1]
      omega

theorem to_string_canonical (n : Nat) :
    isCanonicalDecimal (to_string n) = true ∧ decimalValue (to_string n) = n := by
  refine ⟨?_, toDigits_foldl_value n⟩
  have hd : (to_string n).data = Nat.toDigits 10 n := rfl
  simp only [isCanonicalDecimal, hd, Bool.and_eq_true, Bool.or_eq_true, Bool.not_eq_true',
    List.isEmpty_eq_false, List.all_eq_true, bne_iff_ne, ne_eq, beq_iff_eq]
  refine ⟨⟨toDigits_ne_nil n, toDigits_all_isDigit n⟩, ?_⟩
  rcases Nat.eq_zero_or_pos n with h0 | h0
  · left; subst h0; decide
  · right; exact toDigits_head_ne_zero n h0

theorem static_cast_unsigned_spec (v : Int) :
    (static_cast_unsigned v : Int) = v % 2 ^ 32 ∧ static_cast_unsigned v < 2 ^ 32 := by
  have h0 : 0 ≤ v % 2 ^ 32 := Int.emod_nonneg _ (by norm_num)
  have h1 : v % 2 ^ 32 < 2 ^ 32 := Int.emod_lt_of_pos _ (by norm_num)
  unfold static_cast_unsigned
  refine ⟨Int.toNat_of_nonneg h0, ?_⟩
  have h2 : ((v % 2 ^ 32).toNat : Int) < ((2 ^ 32 : Nat) : Int) := by
    rw [Int.toNat_of_nonneg h0]
    exact_mod_cast h1
  exact_mod_cast h2

/-! ## Shape of the messages of Capstone2LlvmIrModeError -/

theorem Capstone2LlvmIrModeError.getMessage_first_char (E : Engine) (a : cs_arch)
    (m : cs_mode) (t : Capstone2LlvmIrModeError.eType) :
    ((Capstone2LlvmIrModeError.ctor a m t).getMessage E).data.head?
      = some (if t = eType.BASIC_MODE then 'B' else if t = eType.EXTRA_MODE then 'E'
          else if t = eType.BASIC_MODE_CHANGE then 'T' else 'U') := by
  simp only [getMessage, ctor]
  split_ifs <;> simp [String.data_append]

theorem Capstone2LlvmIrModeError.getMessage_decomposition (E : Engine) (a : cs_arch)
    (m : cs_mode) (t : Capstone2LlvmIrModeError.eType)
    (ht : t = eType.BASIC_MODE ∨ t = eType.EXTRA_MODE ∨ t = eType.BASIC_MODE_CHANGE) :
    (Capstone2LlvmIrModeError.ctor a m t).getMessage E
      = (fixedPhrases t).1 ++ E.capstoneModeToString m
          ++ (" (" ++ to_string (static_cast_unsigned m.val) ++ ")")
          ++ (fixedPhrases t).2 ++ E.capstoneArchToString a
          ++ (" (" ++ to_string (static_cast_unsigned a.val) ++ ")") := by
  have h12 : eType.EXTRA_MODE ≠ eType.BASIC_MODE := by decide
  have h13 : eType.BASIC_MODE_CHANGE ≠ eType.BASIC_MODE := by decide
  have h23 : eType.BASIC_MODE_CHANGE ≠ eType.EXTRA_MODE := by decide
  rcases ht with rfl | rfl | rfl
  · simp [getMessage, ctor, fixedPhrases, h12.symm, h13.symm, String.append_assoc]
  · simp [getMessage, ctor, fixedPhrases, h12, h23.symm, String.append_assoc]
  · simp [getMessage, ctor, fixedPhrases, h13, h23, String.append_assoc]

theorem Capstone2LlvmIrModeError.getMessage_default (E : Engine) (a : cs_arch)
    (m : cs_mode) (t : Capstone2LlvmIrModeError.eType)
    (h1 : t ≠ eType.BASIC_MODE) (h2 : t ≠ eType.EXTRA_MODE) (h3 : t ≠ eType.BASIC_MODE_CHANGE) :
    (Capstone2LlvmIrModeError.ctor a m t).getMessage E = sentinel := by
  simp [getMessage, ctor, sentinel, h1, h2, h3]

theorem occursIn_of_decomposition (P M N₁ Q A N₂ s : String)
    (h : s = P ++ M ++ N₁ ++ Q ++ A ++ N₂) :
    occursIn A s ∧ occursIn M s ∧ occursIn P s ∧ occursIn Q s
      ∧ (∃ p q r : String, s = p ++ M ++ q ++ A ++ r)
      ∧ (∃ q r : String, s = P ++ M ++ q ++ Q ++ A ++ r) := by
  subst h
  refine ⟨⟨P ++ M ++ N₁ ++ Q, N₂, rfl⟩, ⟨P, N₁ ++ Q ++ A ++ N₂, ?_⟩,
    ⟨"", M ++ N₁ ++ Q ++ A ++ N₂, ?_⟩, ⟨P ++ M ++ N₁, A ++ N₂, ?_⟩,
    ⟨P, N₁ ++ Q, N₂, ?_⟩, ⟨N₁, N₂, rfl⟩⟩
  all_goals simp only [String.append_assoc, String.empty_append]

/-! ## The statement-level bodies agree with `getMessage` and keep the fields -/

theorem CapstoneError.getMessageBody_keeps_this (E : Engine) (f : CapstoneError.Frame) :
    (CapstoneError.getMessageBody E f).this = f.this
      ∧ (CapstoneError.getMessageBody E f).ret = f.this.getMessage E := by
  simp [CapstoneError.getMessageBody, CapstoneError.getMessage]

theorem Capstone2LlvmIrModeError.getMessageBody_keeps_fields (E : Engine)
    (f : Capstone2LlvmIrModeError.Frame) :
    (Capstone2LlvmIrModeError.getMessageBody E f).this = f.this
      ∧ (Capstone2LlvmIrModeError.getMessageBody E f).ret = f.this.getMessage E := by
  simp only [getMessageBody, switch_type, declare_ret, declare_as, declare_ms, getMessage]
  split_ifs <;> exact ⟨rfl, rfl⟩

theorem Memory.read_after_temporary (μ : Memory) (s tmp : String) :
    (((μ.construct s).2.construct tmp).2.destroy ((μ.construct s).2.construct tmp).1).read
        (c_str (μ.construct s).1) = some (ntbs s) := by
  simp [Memory.read, Memory.construct, Memory.destroy, c_str, List.getD_eq_getElem?_getD,
    List.getElem?_set, List.getElem?_append, List.getElem_append_right]

/-! ## Idempotence, containment, injectivity in the kind, numerals, totality -/

section ModeErrorProperties

open Capstone2LlvmIrModeError

/-- C11: rendering is idempotent and depends only on the constructor arguments.
For `CapstoneError` and `Capstone2LlvmIrModeError` the body of `getMessage()`
is run statement by statement on a frame with arbitrary locals: the call
returns the message of the instance, a second call on the frame the first one
left returns the same string, and after each call the fields are those the
constructor stored. For `Capstone2LlvmIrError`, constructed with assertions
disabled in any memory, two successive `what()` calls give the same text, the
stored message is the same before and after, and a `what()` call on another
error in between does not change the text. The text does not depend on the
memory the object was constructed in, and the messages of the other two
classes depend on the engine only through its answers for the constructor
arguments. -/
theorem rendering_idempotent (E E' : Engine) (c : cs_err) (a : cs_arch) (m : cs_mode)
    (t : eType) (g₁ g₂ g₃ s : String) (μ μ' : Memory) :
    (CapstoneError.getMessageCall E ⟨CapstoneError.ctor c, g₁⟩).1
        = (CapstoneError.ctor c).getMessage E
      ∧ (CapstoneError.getMessageCall E
            (CapstoneError.getMessageCall E ⟨CapstoneError.ctor c, g₁⟩).2).1
          = (CapstoneError.getMessageCall E ⟨CapstoneError.ctor c, g₁⟩).1
      ∧ (CapstoneError.getMessageCall E ⟨CapstoneError.ctor c, g₁⟩).2.this
          = CapstoneError.ctor c
      ∧ (CapstoneError.getMessageCall E
            (CapstoneError.getMessageCall E ⟨CapstoneError.ctor c, g₁⟩).2).2.this
          = CapstoneError.ctor c
      ∧ (getMessageCall E ⟨Capstone2LlvmIrModeError.ctor a m t, g₁, g₂, g₃⟩).1
          = (Capstone2LlvmIrModeError.ctor a m t).getMessage E
      ∧ (getMessageCall E
            (getMessageCall E ⟨Capstone2LlvmIrModeError.ctor a m t, g₁, g₂, g₃⟩).2).1
          = (getMessageCall E ⟨Capstone2LlvmIrModeError.ctor a m t, g₁, g₂, g₃⟩).1
      ∧ (getMessageCall E ⟨Capstone2LlvmIrModeError.ctor a m t, g₁, g₂, g₃⟩).2.this
          = Capstone2LlvmIrModeError.ctor a m t
      ∧ (getMessageCall E
            (getMessageCall E ⟨Capstone2LlvmIrModeError.ctor a m t, g₁, g₂, g₃⟩).2).2.this
          = Capstone2LlvmIrModeError.ctor a m t
      ∧ (∃ (e : Capstone2LlvmIrError) (μ₁ : Memory),
          Capstone2LlvmIrError.ctor true s μ = .normal e μ₁
            ∧ (e.what μ₁).2.read (e.what μ₁).1 = some (ntbs s)
            ∧ (e.what (e.what μ₁).2).2.read (e.what (e.what μ₁).2).1 = some (ntbs s)
            ∧ μ₁.strings.getD e._whatMessage none = some s
            ∧ (e.what (e.what μ₁).2).2.strings.getD e._whatMessage none = some s
            ∧ (e.what ((CapstoneError.ctor c).what E μ₁).2).2.read
                (e.what ((CapstoneError.ctor c).what E μ₁).2).1 = some (ntbs s))
      ∧ Capstone2LlvmIrError.rendered true s μ = Capstone2LlvmIrError.rendered true s μ'
      ∧ (E.cs_strerror c = E'.cs_strerror c →
          (CapstoneError.ctor c).getMessage E = (CapstoneError.ctor c).getMessage E')
      ∧ (E.capstoneModeToString m = E'.capstoneModeToString m →
          E.capstoneArchToString a = E'.capstoneArchToString a →
          (Capstone2LlvmIrModeError.ctor a m t).getMessage E
            = (Capstone2LlvmIrModeError.ctor a m t).getMessage E') := by
  have hC := fun f => CapstoneError.getMessageBody_keeps_this E f
  have hM := fun f => getMessageBody_keeps_fields E f
  refine ⟨?_, ?_, ?_, ?_, ?_, ?_, ?_, ?_, ?_, ?_, ?_, ?_⟩
  · simp only [CapstoneError.getMessageCall]
    rw [(hC _).2]
  · simp only [CapstoneError.getMessageCall]
    rw [(hC _).2, (hC _).1, (hC _).2]
  · simp only [CapstoneError.getMessageCall]
    rw [(hC _).1]
  · simp only [CapstoneError.getMessageCall]
    rw [(hC _).1, (hC _).1]
  · simp only [getMessageCall]
    rw [(hM _).2]
  · simp only [getMessageCall]
    rw [(hM _).2, (hM _).1, (hM _).2]
  · simp only [getMessageCall]
    rw [(hM _).1]
  · simp only [getMessageCall]
    rw [(hM _).1, (hM _).1]
  · refine ⟨⟨(μ.construct s).1⟩, (μ.construct s).2, ?_, ?_, ?_, ?_, ?_, ?_⟩
    · simp [Capstone2LlvmIrError.ctor, cassert]
    · exact Memory.read_construct μ s
    · exact Memory.read_construct μ s
    · simp [Memory.construct, List.getD_eq_getElem?_getD]
    · simp [Capstone2LlvmIrError.what, Memory.construct, List.getD_eq_getElem?_getD]
    · exact Memory.read_after_temporary μ s _
  · rw [Capstone2LlvmIrError.rendered_eq_ntbs, Capstone2LlvmIrError.rendered_eq_ntbs]
  · intro hc
    simpa [CapstoneError.getMessage, CapstoneError.ctor] using hc
  · intro hm ha
    simp [getMessage, ctor, hm, ha]

/-- C11 at `sampleEngine` and `otherEngine`, which agree on error code 0, mode 2
and architecture 3 and differ elsewhere, with the second call of `getMessage()`
starting from the frame the first one left. -/
theorem rendering_idempotent_witness :
    (CapstoneError.ctor ⟨0⟩).getMessage sampleEngine
        = (CapstoneError.ctor ⟨0⟩).getMessage otherEngine
      ∧ (Capstone2LlvmIrModeError.ctor ⟨3⟩ ⟨2⟩ eType.BASIC_MODE).getMessage sampleEngine
        = (Capstone2LlvmIrModeError.ctor ⟨3⟩ ⟨2⟩ eType.BASIC_MODE).getMessage otherEngine
      ∧ (getMessageCall sampleEngine
            (getMessageCall sampleEngine
              ⟨Capstone2LlvmIrModeError.ctor ⟨3⟩ ⟨2⟩ eType.BASIC_MODE, "x", "y", "z"⟩).2).1
          = "Basic mode: 16-bit (2) cannot be used with architecture: X86 (3)" := by
  obtain ⟨-, -, -, -, h₃, h₄, -, -, -, -, h₁, h₂⟩ :=
    rendering_idempotent sampleEngine otherEngine ⟨0⟩ ⟨3⟩ ⟨2⟩ eType.BASIC_MODE "x" "y" "z"
      "mode error" ⟨[some "mode error"]⟩ ⟨[]⟩
  exact ⟨h₁ (by decide), h₂ (by decide) (by decide), (h₄.trans h₃).trans (by decide)⟩

/-- C12: for each of the kinds BASIC_MODE, EXTRA_MODE and BASIC_MODE_CHANGE the
message contains the engine's name of the architecture, the engine's name of
the mode and the two fixed phrases of the kind, and the mode name occurs
before the architecture name: the message is the first phrase, the mode
name, some text, the second phrase, the architecture name and some text. -/
theorem getMessage_contains (E : Engine) (a : cs_arch) (m : cs_mode) (t : eType)
    (ht : t = eType.BASIC_MODE ∨ t = eType.EXTRA_MODE ∨ t = eType.BASIC_MODE_CHANGE) :
    occursIn (E.capstoneArchToString a) ((Capstone2LlvmIrModeError.ctor a m t).getMessage E)
      ∧ occursIn (E.capstoneModeToString m)
          ((Capstone2LlvmIrModeError.ctor a m t).getMessage E)
      ∧ occursIn (fixedPhrases t).1 ((Capstone2LlvmIrModeError.ctor a m t).getMessage E)
      ∧ occursIn (fixedPhrases t).2 ((Capstone2LlvmIrModeError.ctor a m t).getMessage E)
      ∧ (∃ p q r : String, (Capstone2LlvmIrModeError.ctor a m t).getMessage E
          = p ++ E.capstoneModeToString m ++ q ++ E.capstoneArchToString a ++ r)
      ∧ (∃ q r : String, (Capstone2LlvmIrModeError.ctor a m t).getMessage E
          = (fixedPhrases t).1 ++ E.capstoneModeToString m ++ q
            ++ (fixedPhrases t).2 ++ E.capstoneArchToString a ++ r) := by
  exact occursIn_of_decomposition _ _ _ _ _ _ _ (getMessage_decomposition E a m t ht)

/-- C12 at the scenario of the specification, with the phrases of BASIC_MODE
written out. -/
theorem getMessage_contains_witness :
    fixedPhrases eType.BASIC_MODE = ("Basic mode: ", " cannot be used with architecture: ")
      ∧ occursIn "X86"
          ((Capstone2LlvmIrModeError.ctor ⟨3⟩ ⟨2⟩ eType.BASIC_MODE).getMessage sampleEngine)
      ∧ occursIn "16-bit"
          ((Capstone2LlvmIrModeError.ctor ⟨3⟩ ⟨2⟩ eType.BASIC_MODE).getMessage sampleEngine)
      ∧ occursIn "Basic mode: "
          ((Capstone2LlvmIrModeError.ctor ⟨3⟩ ⟨2⟩ eType.BASIC_MODE).getMessage sampleEngine)
      ∧ occursIn " cannot be used with architecture: "
          ((Capstone2LlvmIrModeError.ctor ⟨3⟩ ⟨2⟩ eType.BASIC_MODE).getMessage sampleEngine) :=
  ⟨by decide,
   (getMessage_contains sampleEngine ⟨3⟩ ⟨2⟩ eType.BASIC_MODE (Or.inl rfl)).1,
   (getMessage_contains sampleEngine ⟨3⟩ ⟨2⟩ eType.BASIC_MODE (Or.inl rfl)).2.1,
   (getMessage_contains sampleEngine ⟨3⟩ ⟨2⟩ eType.BASIC_MODE (Or.inl rfl)).2.2.1,
   (getMessage_contains sampleEngine ⟨3⟩ ⟨2⟩ eType.BASIC_MODE (Or.inl rfl)).2.2.2.1⟩

/-- C13: the kind is recoverable from the message alone, whatever the engines'
name functions return: for kinds `k`, `k'` among the four enumerators, equal
messages (for any architectures, modes and engines) have equal kinds, and a
message is the sentinel "Undefined type -- should not happen." exactly when
the kind is UNDEF. -/
theorem kind_recoverable (E E' : Engine) (a a' : cs_arch) (m m' : cs_mode) (k k' : eType)
    (hk : k ∈ eType.enumerators) (hk' : k' ∈ eType.enumerators) :
    ((Capstone2LlvmIrModeError.ctor a m k).getMessage E
        = (Capstone2LlvmIrModeError.ctor a' m' k').getMessage E' → k = k')
      ∧ ((Capstone2LlvmIrModeError.ctor a m k).getMessage E
          = "Undefined type -- should not happen." ↔ k = eType.UNDEF) := by
  have hc := getMessage_first_char E a m k
  have hc' := getMessage_first_char E' a' m' k'
  simp only [eType.enumerators, List.mem_cons, List.mem_singleton, List.not_mem_nil,
    or_false] at hk hk'
  refine ⟨?_, ?_, ?_⟩
  · intro h
    rw [h, hc'] at hc
    rcases hk with rfl | rfl | rfl | rfl <;> rcases hk' with rfl | rfl | rfl | rfl <;>
      first
        | rfl
        | (exfalso; revert hc; decide)
  · intro h
    rw [h] at hc
    rcases hk with rfl | rfl | rfl | rfl <;>
      first
        | rfl
        | (exfalso; revert hc; decide)
  · rintro rfl
    have h := getMessage_default E a m eType.UNDEF (by decide) (by decide) (by decide)
    simpa [sentinel] using h

/-- C13 at two different modes, 5 and 5 + 2^32, that `sampleEngine` names alike
and that have the same numeral: the messages of kind BASIC_MODE are equal,
and the kinds are. -/
theorem kind_recoverable_witness :
    eType.BASIC_MODE ∈ eType.enumerators
      ∧ (Capstone2LlvmIrModeError.ctor ⟨3⟩ ⟨5⟩ eType.BASIC_MODE).getMessage sampleEngine
          = (Capstone2LlvmIrModeError.ctor ⟨3⟩ ⟨4294967301⟩ eType.BASIC_MODE).getMessage
              sampleEngine
      ∧ eType.BASIC_MODE = eType.BASIC_MODE :=
  ⟨by decide, by decide,
   (kind_recoverable sampleEngine sampleEngine ⟨3⟩ ⟨3⟩ ⟨5⟩ ⟨4294967301⟩ eType.BASIC_MODE
      eType.BASIC_MODE (by decide) (by decide)).1 (by decide)⟩

/-- C14: for each of the kinds BASIC_MODE, EXTRA_MODE and BASIC_MODE_CHANGE the
two numerals in parentheses are canonical decimal numerals (digits only, so
no sign character, and no leading zero) of the underlying values of mode and
architecture modulo 2^32, hence of numbers below 2^32. -/
theorem numerals_canonical_unsigned (E : Engine) (a : cs_arch) (m : cs_mode) (t : eType)
    (ht : t = eType.BASIC_MODE ∨ t = eType.EXTRA_MODE ∨ t = eType.BASIC_MODE_CHANGE) :
    ∃ dm da : String,
      (Capstone2LlvmIrModeError.ctor a m t).getMessage E
          = specTemplate t (E.capstoneModeToString m) dm (E.capstoneArchToString a) da
        ∧ isCanonicalDecimal dm = true ∧ (decimalValue dm : Int) = m.val % 2 ^ 32
        ∧ decimalValue dm < 2 ^ 32
        ∧ isCanonicalDecimal da = true ∧ (decimalValue da : Int) = a.val % 2 ^ 32
        ∧ decimalValue da < 2 ^ 32 := by
  refine ⟨to_string (static_cast_unsigned m.val), to_string (static_cast_unsigned a.val),
    getMessage_eq_specTemplate E a m t ht, ?_⟩
  obtain ⟨hm₁, hm₂⟩ := to_string_canonical (static_cast_unsigned m.val)
  obtain ⟨ha₁, ha₂⟩ := to_string_canonical (static_cast_unsigned a.val)
  obtain ⟨hm₃, hm₄⟩ := static_cast_unsigned_spec m.val
  obtain ⟨ha₃, ha₄⟩ := static_cast_unsigned_spec a.val
  rw [hm₂, ha₂]
  exact ⟨hm₁, hm₃, hm₄, ha₁, ha₃, ha₄⟩

/-- C14 at the mode with underlying value -2147483648 and architecture 3, kind
EXTRA_MODE: the message carries the numerals "2147483648" and "3". -/
theorem numerals_canonical_unsigned_witness :
    (∃ dm da : String,
      (Capstone2LlvmIrModeError.ctor ⟨3⟩ ⟨-2147483648⟩ eType.EXTRA_MODE).getMessage sampleEngine
          = specTemplate eType.EXTRA_MODE (sampleEngine.capstoneModeToString ⟨-2147483648⟩) dm
              (sampleEngine.capstoneArchToString ⟨3⟩) da
        ∧ isCanonicalDecimal dm = true ∧ (decimalValue dm : Int) = (-2147483648 : Int) % 2 ^ 32
        ∧ decimalValue dm < 2 ^ 32
        ∧ isCanonicalDecimal da = true ∧ (decimalValue da : Int) = (3 : Int) % 2 ^ 32
        ∧ decimalValue da < 2 ^ 32)
      ∧ (Capstone2LlvmIrModeError.ctor ⟨3⟩ ⟨-2147483648⟩ eType.EXTRA_MODE).getMessage sampleEngine
          = "Extra mode: big-endian (2147483648) cannot be used with architecture: X86 (3)"
      ∧ isCanonicalDecimal "2147483648" = true ∧ decimalValue "2147483648" = 2147483648
      ∧ isCanonicalDecimal "-2147483648" = false ∧ isCanonicalDecimal "03" = false :=
  ⟨numerals_canonical_unsigned sampleEngine ⟨3⟩ ⟨-2147483648⟩ eType.EXTRA_MODE
      (Or.inr (Or.inl rfl)),
   by decide, by decide, by decide, by decide, by decide⟩

/-- C15: rendering is total over the kind: for every architecture, mode and value
of the kind field, named or not, `getMessage()` returns a string, and the
string is not empty; every kind value other than BASIC_MODE, EXTRA_MODE and
BASIC_MODE_CHANGE gives the sentinel. -/
theorem getMessage_total (E : Engine) (a : cs_arch) (m : cs_mode) (t : eType) :
    (∃ s : String, (Capstone2LlvmIrModeError.ctor a m t).getMessage E = s ∧ s ≠ "")
      ∧ (t ≠ eType.BASIC_MODE → t ≠ eType.EXTRA_MODE → t ≠ eType.BASIC_MODE_CHANGE →
          (Capstone2LlvmIrModeError.ctor a m t).getMessage E
            = "Undefined type -- should not happen.") := by
  refine ⟨⟨_, rfl, ?_⟩, ?_⟩
  · intro h
    have hc := getMessage_first_char E a m t
    rw [h] at hc
    simp at hc
  · intro h1 h2 h3
    have h := getMessage_default E a m t h1 h2 h3
    simpa [sentinel] using h

/-- C15 at the kind values 7 and -1, which name no enumerator, and at UNDEF. -/
theorem getMessage_total_witness :
    (Capstone2LlvmIrModeError.ctor ⟨3⟩ ⟨2⟩ ⟨7⟩).getMessage sampleEngine
        = "Undefined type -- should not happen."
      ∧ (Capstone2LlvmIrModeError.ctor ⟨3⟩ ⟨2⟩ ⟨-1⟩).getMessage sampleEngine
        = "Undefined type -- should not happen."
      ∧ (Capstone2LlvmIrModeError.ctor ⟨3⟩ ⟨2⟩ eType.UNDEF).getMessage sampleEngine
        = "Undefined type -- should not happen." :=
  ⟨(getMessage_total sampleEngine ⟨3⟩ ⟨2⟩ ⟨7⟩).2 (by decide) (by decide) (by decide),
   (getMessage_total sampleEngine ⟨3⟩ ⟨2⟩ ⟨-1⟩).2 (by decide) (by decide) (by decide),
   (getMessage_total sampleEngine ⟨3⟩ ⟨2⟩ eType.UNDEF).2 (by decide) (by decide) (by decide)⟩

end ModeErrorProperties

end capstone2llvmir
